import Mathlib

/-!
Verification of the `uncl` floating-overlay terminal program.

This file gives a shallow embedding, in Lean, of the overlay-geometry,
lease, keyboard-routing and mouse-routing code of the repository
(`src/constants.rs`, `src/app/ui/tenant.rs`, `src/app/lease.rs`,
`src/app/input/keyboard.rs`, `src/app/input/mouse.rs`,
`src/app/ui/owner.rs`) and proves or refutes the specification's
testable properties against it.

Machine integers: all the Rust quantities involved are `u16`; they are
modelled as `Nat`.  Rust's `saturating_sub` and Lean's `Nat` subtraction
agree exactly.  Where the Rust code uses unchecked `+` / `-` (only in the
corner-drag arithmetic of `mouse.rs`), the theorems carry the size
invariants of the data model (width/height at least the minimum, values
in `u16` range), under which the `Nat` operations coincide with the
`u16` ones.
-/

namespace Uncl

/-- MIN_WIDTH from src/constants.rs. -/
def MIN_WIDTH : Nat := 10

/-- MIN_HEIGHT from src/constants.rs. -/
def MIN_HEIGHT : Nat := 5

/-- DEFAULT_WIDTH from src/constants.rs. -/
def DEFAULT_WIDTH : Nat := 40

/-- DEFAULT_HEIGHT from src/constants.rs. -/
def DEFAULT_HEIGHT : Nat := 10

/-- DEFAULT_X from src/constants.rs. -/
def DEFAULT_X : Nat := 10

/-- DEFAULT_Y from src/constants.rs. -/
def DEFAULT_Y : Nat := 5

/-- ratatui's Rect as used by the overlay: position and size in cells. -/
structure Rect where
  x : Nat
  y : Nat
  width : Nat
  height : Nat
  deriving DecidableEq, Repr

/-- Size struct from src/app/ui/tenant.rs (cols/rows of the tenant pty). -/
structure Size where
  cols : Nat
  rows : Nat
  deriving DecidableEq, Repr

/-- ResizeDirection from src/constants.rs. -/
inductive ResizeDirection where
  | TopLeft
  | TopRight
  | BottomLeft
  | BottomRight
  deriving DecidableEq, Repr

/-- Overlay struct from src/app/ui/tenant.rs (the tenant window state). -/
structure Overlay where
  rect : Rect
  dragging : Bool
  drag_offset : Nat × Nat
  resizing : Bool
  resize_direction : Option ResizeDirection
  size : Size
  is_dead : Bool
  deriving DecidableEq, Repr

/-- Overlay::new from src/app/ui/tenant.rs. -/
def Overlay.new : Overlay :=
  { rect := ⟨DEFAULT_X, DEFAULT_Y, DEFAULT_WIDTH, DEFAULT_HEIGHT⟩
    dragging := false
    drag_offset := (0, 0)
    resizing := false
    resize_direction := none
    size := ⟨DEFAULT_WIDTH, DEFAULT_HEIGHT⟩
    is_dead := true }

/-- Overlay::resize_to from src/app/ui/tenant.rs (lines 273-315).
Requests below the minimum are dropped; otherwise the origin is clamped
to the bounds, width/height are clamped to the remaining space but
floored at the minimum, and the origin is re-clamped against the final
extent.  Rust's `saturating_sub` is `Nat` subtraction. -/
def resize_to (o : Overlay) (x0 y0 width0 height0 : Nat) (bounds : Nat × Nat) : Overlay :=
  if width0 < MIN_WIDTH ∨ height0 < MIN_HEIGHT then o
  else
    let x1 := min (max x0 0) (bounds.1 - 1)
    let y1 := min (max y0 0) (bounds.2 - 1)
    let max_width := bounds.1 - x1
    let max_height := bounds.2 - y1
    let width1 := max (min width0 max_width) MIN_WIDTH
    let height1 := max (min height0 max_height) MIN_HEIGHT
    let x2 := if bounds.1 - width1 < x1 then bounds.1 - width1 else x1
    let y2 := if bounds.2 - height1 < y1 then bounds.2 - height1 else y1
    { o with
        rect := ⟨x2, y2, width1, height1⟩
        size := ⟨width1, height1⟩ }

/-- Overlay::move_to from src/app/ui/tenant.rs (lines 317-323). -/
def move_to (o : Overlay) (target_x target_y : Nat) (bounds : Nat × Nat) : Overlay :=
  let max_x := bounds.1 - o.rect.width
  let max_y := bounds.2 - o.rect.height
  { o with rect := { o.rect with x := min target_x max_x, y := min target_y max_y } }

/-- The dimensions of the vt100 parser backing the tenant screen
(tenant_parser in src/app/lease.rs); only the (rows, cols) geometry is
modelled, the cell buffer is owned by the external emulation engine. -/
structure ScreenModel where
  rows : Nat
  cols : Nat
  deriving DecidableEq, Repr

/-- Lease from src/app/lease.rs: the tenant overlay, the tenant screen
model and the visibility flag.  The channels, which carry IO, are
modelled by returning the sent values from the routing functions. -/
structure Lease where
  tenant : Overlay
  screen : ScreenModel
  tenant_visible : Bool
  deriving DecidableEq, Repr

/-- Lease::new from src/app/lease.rs: fresh overlay, parser sized
(DEFAULT_HEIGHT, DEFAULT_WIDTH), hidden. -/
def Lease.new : Lease :=
  { tenant := Overlay.new
    screen := ⟨DEFAULT_HEIGHT, DEFAULT_WIDTH⟩
    tenant_visible := false }

/-- Lease::expired from src/app/lease.rs (lines 44-51): returns the
boolean result together with the mutated lease. -/
def expired (l : Lease) : Bool × Lease :=
  if l.tenant.is_dead then (true, { l with tenant_visible := false })
  else (false, l)

/-- Lease::resize_screen from src/app/lease.rs (lines 75-85): sets the
vt100 parser to (rows, cols).  The resize message sent down
tenant_resize_tx carries the same pair and is not separately modelled. -/
def resize_screen (l : Lease) (rows cols : Nat) : Lease :=
  { l with screen := ⟨rows, cols⟩ }

/-- crossterm KeyCode, restricted to the variants src/app/input/keyboard.rs
matches on; Other stands for every remaining variant (all of which fall
into the catch-all arm). -/
inductive KeyCode where
  | Char (c : Char)
  | Enter
  | Backspace
  | Delete
  | Tab
  | BackTab
  | Left
  | Right
  | Up
  | Down
  | Esc
  | End
  | PageUp
  | PageDown
  | F (n : Nat)
  | Home
  | Other
  deriving DecidableEq, Repr

/-- crossterm KeyModifiers, restricted to the three bits keyboard.rs
tests with contains(). -/
structure KeyModifiers where
  shift : Bool
  ctrl : Bool
  alt : Bool
  deriving DecidableEq, Repr

/-- The UTF-8 bytes of a character: the meaning of Rust's
c.to_string().into_bytes() for a char c. -/
def char_utf8 (c : Char) : List Nat :=
  let n := c.toNat
  if n < 0x80 then [n]
  else if n < 0x800 then [0xC0 + n / 0x40, 0x80 + n % 0x40]
  else if n < 0x10000 then
    [0xE0 + n / 0x1000, 0x80 + (n / 0x40) % 0x40, 0x80 + n % 0x40]
  else
    [0xF0 + n / 0x40000, 0x80 + (n / 0x1000) % 0x40,
     0x80 + (n / 0x40) % 0x40, 0x80 + n % 0x40]

/-- The final match of handle_keyboard_input (keyboard.rs lines 146-270):
the byte chunks sent for a key that was not intercepted earlier.  Rust's
(c as u8) is c.toNat % 256. -/
def key_bytes (code : KeyCode) (mods : KeyModifiers) : List (List Nat) :=
  match code with
  | .Char c =>
      if mods.ctrl then [[(c.toNat % 256) &&& 0x1F]]
      else if mods.alt then [[27, c.toNat % 256]]
      else [char_utf8 c]
  | .Enter => [[13]]
  | .Backspace => [[8]]
  | .Delete => [[27, 91, 51, 126]]
  | .Tab => [[9]]
  | .BackTab => [[27, 91, 90]]
  | .Left => [[27, 91, 68]]
  | .Right => [[27, 91, 67]]
  | .Up => [[27, 91, 65]]
  | .Down => [[27, 91, 66]]
  | .Esc => [[27]]
  | .End => [[27, 91, 70]]
  | .PageUp => [[27, 91, 53, 126]]
  | .PageDown => [[27, 91, 54, 126]]
  | .F n =>
      match n with
      | 1 => [[27, 79, 80]]
      | 2 => [[27, 79, 81]]
      | 3 => [[27, 79, 82]]
      | 4 => [[27, 79, 83]]
      | 5 => [[27, 91, 49, 53, 126]]
      | 6 => [[27, 91, 49, 55, 126]]
      | 7 => [[27, 91, 49, 56, 126]]
      | 8 => [[27, 91, 49, 57, 126]]
      | 9 => [[27, 91, 50, 48, 126]]
      | 10 => [[27, 91, 50, 49, 126]]
      | 11 => [[27, 91, 50, 51, 126]]
      | 12 => [[27, 91, 50, 52, 126]]
      | _ => []
  | .Home => []
  | .Other => []

/-- handle_keyboard_input from src/app/input/keyboard.rs (lines 7-273).
Result: (lease after the call, byte chunks sent to the active sender,
return value).  Home is intercepted first; Shift+arrow and Ctrl+arrow
are intercepted when the overlay is visible (resize / move) and encoded
as escape sequences otherwise; every other key falls through to
key_bytes.  Rust's saturating_sub is Nat subtraction. -/
def handle_keyboard_input (l : Lease) (code : KeyCode) (mods : KeyModifiers)
    (term_size : Nat × Nat) : Lease × List (List Nat) × Bool :=
  let x := l.tenant.rect.x
  let y := l.tenant.rect.y
  let width := l.tenant.rect.width
  let height := l.tenant.rect.height
  if code = .Home then
    ({ l with tenant_visible := !l.tenant_visible }, [], false)
  else
    let intercepted : Option (Lease × List (List Nat) × Bool) :=
      if mods.shift then
        match code with
        | .Left =>
            if l.tenant_visible then
              let l1 := { l with tenant := resize_to l.tenant x y (width - 1) height term_size }
              some (resize_screen l1 height (width - 1), [], false)
            else some (l, [[27, 91, 49, 59, 50, 68]], false)
        | .Right =>
            if l.tenant_visible then
              let l1 := { l with tenant := resize_to l.tenant x y (width + 1) height term_size }
              some (resize_screen l1 height (width + 1), [], false)
            else some (l, [[27, 91, 49, 59, 50, 67]], false)
        | .Up =>
            if l.tenant_visible then
              let l1 := { l with tenant := resize_to l.tenant x y width (height - 1) term_size }
              some (resize_screen l1 (height - 1) width, [], false)
            else some (l, [[27, 91, 49, 59, 50, 65]], false)
        | .Down =>
            if l.tenant_visible then
              let l1 := { l with tenant := resize_to l.tenant x y width (height + 1) term_size }
              some (resize_screen l1 (height + 1) width, [], false)
            else some (l, [[27, 91, 49, 59, 50, 66]], false)
        | _ => none
      else if mods.ctrl then
        match code with
        | .Left =>
            if l.tenant_visible then
              some ({ l with tenant := move_to l.tenant (x - 1) y term_size }, [], false)
            else some (l, [[27, 91, 49, 59, 53, 68]], false)
        | .Right =>
            if l.tenant_visible then
              some ({ l with tenant := move_to l.tenant (x + 1) y term_size }, [], false)
            else some (l, [[27, 91, 49, 59, 53, 67]], false)
        | .Up =>
            if l.tenant_visible then
              some ({ l with tenant := move_to l.tenant x (y - 1) term_size }, [], false)
            else some (l, [[27, 91, 49, 59, 53, 65]], false)
        | .Down =>
            if l.tenant_visible then
              some ({ l with tenant := move_to l.tenant x (y + 1) term_size }, [], false)
            else some (l, [[27, 91, 49, 59, 53, 66]], false)
        | _ => none
      else none
    match intercepted with
    | some r => r
    | none => (l, key_bytes code mods, false)

/-- crossterm MouseEventKind, restricted to the variants matched in
src/app/ui/owner.rs and src/app/input/mouse.rs; Moved stands for the
kinds that fall into the catch-all arms. -/
inductive MouseEventKind where
  | DownLeft
  | DownRight
  | DownMiddle
  | UpLeft
  | UpRight
  | UpMiddle
  | DragLeft
  | DragRight
  | DragMiddle
  | ScrollUp
  | ScrollDown
  | Moved
  deriving DecidableEq, Repr

/-- crossterm MouseEvent: kind plus cell position. -/
structure MouseEvent where
  kind : MouseEventKind
  column : Nat
  row : Nat
  deriving DecidableEq, Repr

/-- is_within_overlay from src/app/input/mouse.rs (lines 104-108). -/
def is_within_overlay (m : MouseEvent) (r : Rect) : Bool :=
  decide (r.x ≤ m.column) && decide (m.column < r.x + r.width) &&
    decide (r.y ≤ m.row) && decide (m.row < r.y + r.height)

/-- The corner-drag request computed inside handle_mouse
(src/app/input/mouse.rs lines 49-77): the (new_x, new_y, new_width,
new_height) tuple for the given resize direction and pointer position.
Rust's saturating_sub and the plain u16 subtractions are Nat
subtraction (the theorems carry the width/height invariants under which
the plain subtractions cannot underflow). -/
def corner_request (rect : Rect) (direction : ResizeDirection) (mc mr : Nat) :
    Nat × Nat × Nat × Nat :=
  match direction with
  | .TopLeft =>
      let new_x := max (min mc (rect.x + rect.width - MIN_WIDTH)) 0
      let new_y := max (min mr (rect.y + rect.height - MIN_HEIGHT)) 0
      (new_x, new_y, max (rect.x + rect.width - new_x) MIN_WIDTH,
        max (rect.y + rect.height - new_y) MIN_HEIGHT)
  | .TopRight =>
      let new_y := max (min mr (rect.y + rect.height - MIN_HEIGHT)) 0
      (rect.x, new_y, max (mc - rect.x) MIN_WIDTH,
        max (rect.y + rect.height - new_y) MIN_HEIGHT)
  | .BottomLeft =>
      let new_x := max (min mc (rect.x + rect.width - MIN_WIDTH)) 0
      (new_x, rect.y, max (rect.x + rect.width - new_x) MIN_WIDTH,
        max (mr - rect.y) MIN_HEIGHT)
  | .BottomRight =>
      (rect.x, rect.y, max (mc - rect.x) MIN_WIDTH, max (mr - rect.y) MIN_HEIGHT)

/-- The body of the pointer-drag resize branch of handle_mouse
(src/app/input/mouse.rs lines 47-83): compute the corner request and,
when both dimensions meet the minimum (always true, as the request is
floored at the minimum), apply it through resize_to and push the
requested dimensions to resize_screen. -/
def apply_corner_drag (l : Lease) (direction : ResizeDirection) (mc mr : Nat)
    (bounds : Nat × Nat) : Lease :=
  let q := corner_request l.tenant.rect direction mc mr
  if MIN_WIDTH ≤ q.2.2.1 ∧ MIN_HEIGHT ≤ q.2.2.2 then
    let l1 := { l with tenant := resize_to l.tenant q.1 q.2.1 q.2.2.1 q.2.2.2 bounds }
    resize_screen l1 q.2.2.2 q.2.2.1
  else l

/-- handle_mouse from src/app/input/mouse.rs (lines 6-102), for the
tenant-visible path of the event loop: pointer-down starts a corner
resize, a drag, or hides the overlay; pointer-drag applies the corner
request through resize_to (plus resize_screen) or moves the rectangle;
pointer-up clears the gesture state. -/
def handle_mouse (l : Lease) (m : MouseEvent) (bounds : Nat × Nat) : Lease :=
  let rect := l.tenant.rect
  let x := m.column
  let y := m.row
  match m.kind with
  | .DownLeft =>
      if is_within_overlay m rect then
        if l.tenant_visible then
          let near_left := x ≤ rect.x + 1
          let near_right := rect.x + (rect.width - 2) ≤ x
          let near_top := y ≤ rect.y + 1
          let near_bottom := rect.y + (rect.height - 2) ≤ y
          if near_left ∧ near_top then
            { l with tenant :=
                { l.tenant with resizing := true, resize_direction := some .TopLeft } }
          else if near_right ∧ near_top then
            { l with tenant :=
                { l.tenant with resizing := true, resize_direction := some .TopRight } }
          else if near_left ∧ near_bottom then
            { l with tenant :=
                { l.tenant with resizing := true, resize_direction := some .BottomLeft } }
          else if near_right ∧ near_bottom then
            { l with tenant :=
                { l.tenant with resizing := true, resize_direction := some .BottomRight } }
          else
            { l with tenant :=
                { l.tenant with
                    dragging := true
                    drag_offset := (x - rect.x, y - rect.y) } }
        else l
      else if l.tenant_visible then { l with tenant_visible := false } else l
  | .DragLeft =>
      if l.tenant.resizing then
        match l.tenant.resize_direction with
        | some direction => apply_corner_drag l direction x y bounds
        | none => l
      else if l.tenant.dragging then
        let max_x := bounds.1 - rect.width
        let max_y := bounds.2 - rect.height
        let new_x := min (x - l.tenant.drag_offset.1) max_x
        let new_y := min (y - l.tenant.drag_offset.2) max_y
        { l with tenant := { l.tenant with rect := { rect with x := new_x, y := new_y } } }
      else l
  | .UpLeft =>
      { l with tenant :=
          { l.tenant with dragging := false, resizing := false, resize_direction := none } }
  | _ => l

/-- True if needle is a leading segment of the second list. -/
def leading_match : List Nat → List Nat → Bool
  | [], _ => true
  | _ :: _, [] => false
  | a :: ns, b :: ms => a == b && leading_match ns ms

/-- True if needle occurs contiguously anywhere in hay: the meaning of
Rust's str::contains on the lossy-decoded chunk (all the sequences
scanned for are plain ASCII, on which the byte view and the string view
agree). -/
def contains_seq (hay needle : List Nat) : Bool :=
  match hay with
  | [] => leading_match needle []
  | _ :: t => leading_match needle hay || contains_seq t needle

/-- The mouse-mode ENABLE escape sequences scanned for in
src/app/ui/owner.rs (lines 209-216): ESC [ ? 1000/1002/1003/1006/1015/9/
1005/1004 h, as byte lists. -/
def mouse_enable_seqs : List (List Nat) :=
  [[27, 91, 63, 49, 48, 48, 48, 104],
   [27, 91, 63, 49, 48, 48, 50, 104],
   [27, 91, 63, 49, 48, 48, 51, 104],
   [27, 91, 63, 49, 48, 48, 54, 104],
   [27, 91, 63, 49, 48, 49, 53, 104],
   [27, 91, 63, 57, 104],
   [27, 91, 63, 49, 48, 48, 53, 104],
   [27, 91, 63, 49, 48, 48, 52, 104]]

/-- The mouse-mode DISABLE sequences (owner.rs lines 223-230): the same
modes with final byte l. -/
def mouse_disable_seqs : List (List Nat) :=
  [[27, 91, 63, 49, 48, 48, 48, 108],
   [27, 91, 63, 49, 48, 48, 50, 108],
   [27, 91, 63, 49, 48, 48, 51, 108],
   [27, 91, 63, 49, 48, 48, 54, 108],
   [27, 91, 63, 49, 48, 49, 53, 108],
   [27, 91, 63, 57, 108],
   [27, 91, 63, 49, 48, 48, 53, 108],
   [27, 91, 63, 49, 48, 48, 52, 108]]

/-- The alternate-screen ENTER sequences (owner.rs lines 236-238):
ESC [ ? 47/1047/1049 h. -/
def alt_screen_enable_seqs : List (List Nat) :=
  [[27, 91, 63, 52, 55, 104],
   [27, 91, 63, 49, 48, 52, 55, 104],
   [27, 91, 63, 49, 48, 52, 57, 104]]

/-- The alternate-screen EXIT sequences (owner.rs lines 251-253). -/
def alt_screen_disable_seqs : List (List Nat) :=
  [[27, 91, 63, 52, 55, 108],
   [27, 91, 63, 49, 48, 52, 55, 108],
   [27, 91, 63, 49, 48, 52, 57, 108]]

/-- The bytes of xterm, looked for inside the TERM variable. -/
def term_xterm : List Nat := [120, 116, 101, 114, 109]

/-- The bytes of screen, looked for inside the TERM variable. -/
def term_screen : List Nat := [115, 99, 114, 101, 101, 110]

/-- The mouse-mode flag update performed on one chunk of owner output by
the reader loop of Container::initialize_pty (owner.rs lines 203-261):
four sequential conditional stores to the atomic flag, in source order
(enable, disable, alternate-screen enter gated on TERM, alternate-screen
exit). -/
def update_mouse_mode (term chunk : List Nat) (flag : Bool) : Bool :=
  let f1 := if mouse_enable_seqs.any (fun s => contains_seq chunk s) then true else flag
  let f2 := if mouse_disable_seqs.any (fun s => contains_seq chunk s) then false else f1
  let f3 :=
    if alt_screen_enable_seqs.any (fun s => contains_seq chunk s) &&
        (contains_seq term term_xterm || contains_seq term term_screen) then true
    else f2
  if alt_screen_disable_seqs.any (fun s => contains_seq chunk s) then false else f3

/-- The (button_code, final byte) table of Container::run
(owner.rs lines 374-387); none for the kinds mapped to -1, which are
never forwarded.  77 and 109 are the bytes of M and m. -/
def mouse_button_code (k : MouseEventKind) : Option (Nat × Nat) :=
  match k with
  | .DownLeft => some (0, 77)
  | .UpLeft => some (0, 109)
  | .DownRight => some (2, 77)
  | .UpRight => some (2, 109)
  | .DownMiddle => some (1, 77)
  | .UpMiddle => some (1, 109)
  | .DragLeft => some (32, 77)
  | .DragRight => some (34, 77)
  | .DragMiddle => some (33, 77)
  | .ScrollUp => some (64, 77)
  | .ScrollDown => some (65, 77)
  | .Moved => none

/-- Decimal ASCII digits of a number, as produced by Rust's format!. -/
def dec_bytes (n : Nat) : List Nat := (Nat.toDigits 10 n).map Char.toNat

/-- The byte chunks forwarded for one mouse event by the Event::Mouse
branch of Container::run (owner.rs lines 370-407).  When the overlay is
hidden the event is SGR-encoded and sent only if the mouse-mode flag is
set; when the overlay is visible the event goes to handle_mouse instead
(modelled above) and nothing is forwarded to the owner. -/
def forward_mouse (tenant_visible mouse_mode : Bool) (m : MouseEvent) : List (List Nat) :=
  if !tenant_visible then
    if mouse_mode then
      match mouse_button_code m.kind with
      | some bc =>
          [[27, 91, 60] ++ dec_bytes bc.1 ++ [59] ++ dec_bytes (m.column + 1) ++ [59] ++
            dec_bytes (m.row + 1) ++ [bc.2]]
      | none => []
    else []
  else []

/-- One coordinate channel of resize_to: clamp the origin to the bounds,
clamp the extent to the remaining space with floor m, re-clamp the
origin.  resize_to is the product of two instances of this function
(m = MIN_WIDTH on the x channel, m = MIN_HEIGHT on the y channel). -/
def clamp1 (m b p w : Nat) : Nat × Nat :=
  let p1 := min (max p 0) (b - 1)
  let w1 := max (min w (b - p1)) m
  (if b - w1 < p1 then b - w1 else p1, w1)

/-- One coordinate channel of the corner request when the dragged corner
is on the low side (left or top): the moved edge follows the pointer q,
the opposite edge p + w stays fixed, floored at m.  Matches the
TopLeft/BottomLeft x channel and the TopLeft/TopRight y channel of
corner_request. -/
def req_low (m q p w : Nat) : Nat × Nat :=
  let np := max (min q (p + w - m)) 0
  (np, max (p + w - np) m)

/-- One coordinate channel of the corner request when the dragged corner
is on the high side (right or bottom): the origin p stays fixed and the
extent follows the pointer q, floored at m.  Matches the remaining
channels of corner_request. -/
def req_high (m q p w : Nat) : Nat × Nat :=
  (p, max (q - p) m)

/-- One channel of a full pointer-drag update: request then clamp. -/
def step1 (f : Nat → Nat → Nat → Nat → Nat × Nat) (m b q : Nat) (pw : Nat × Nat) :
    Nat × Nat :=
  clamp1 m b (f m q pw.1 pw.2).1 (f m q pw.1 pw.2).2

/-- The x-channel request function of each resize direction. -/
def fx : ResizeDirection → (Nat → Nat → Nat → Nat → Nat × Nat)
  | .TopLeft => req_low
  | .BottomLeft => req_low
  | .TopRight => req_high
  | .BottomRight => req_high

/-- The y-channel request function of each resize direction. -/
def fy : ResizeDirection → (Nat → Nat → Nat → Nat → Nat × Nat)
  | .TopLeft => req_low
  | .TopRight => req_low
  | .BottomLeft => req_high
  | .BottomRight => req_high

/-- The re-clamp of the origin in clamp1 is a minimum. -/
theorem ite_lt_min (a b : Nat) : (if a < b then a else b) = min a b := by
  split <;> omega

/-- Invariants of the output of a low-side channel step: extent at least
m, origin inside the bounds and no further right than the pointer, and
(unless the extent collapsed to m) the origin equal to its own
re-request. -/
theorem step_low_out (m b q p w : Nat) (hm : 1 ≤ m) (hw : m ≤ w) :
    m ≤ (step1 req_low m b q (p, w)).2 ∧
    (step1 req_low m b q (p, w)).1 ≤ b - 1 ∧
    (step1 req_low m b q (p, w)).1 ≤ b - (step1 req_low m b q (p, w)).2 ∧
    (step1 req_low m b q (p, w)).1 ≤ q ∧
    ((step1 req_low m b q (p, w)).2 ≤ b ∨
      ((step1 req_low m b q (p, w)).2 = m ∧ (step1 req_low m b q (p, w)).1 = 0)) ∧
    ((step1 req_low m b q (p, w)).2 = m ∨
      (step1 req_low m b q (p, w)).1 =
        min (min q ((step1 req_low m b q (p, w)).1 + (step1 req_low m b q (p, w)).2 - m))
          (b - 1)) := by
  simp only [step1, req_low, clamp1, ite_lt_min]
  omega

/-- Every state satisfying the low-side output invariants is a fixpoint
of the low-side channel step. -/
theorem step_low_fix (m b q P W : Nat) (hm : 1 ≤ m)
    (h1 : m ≤ W) (h2 : P ≤ b - 1) (h3 : P ≤ b - W) (h4 : P ≤ q)
    (h5 : W ≤ b ∨ (W = m ∧ P = 0))
    (h6 : W = m ∨ P = min (min q (P + W - m)) (b - 1)) :
    step1 req_low m b q (P, W) = (P, W) := by
  simp only [step1, req_low, clamp1, ite_lt_min, Prod.mk.injEq]
  constructor <;> omega

/-- A low-side channel step is idempotent. -/
theorem step_low_idem (m b q p w : Nat) (hm : 1 ≤ m) (hw : m ≤ w) :
    step1 req_low m b q (step1 req_low m b q (p, w)) = step1 req_low m b q (p, w) := by
  obtain ⟨h1, h2, h3, h4, h5, h6⟩ := step_low_out m b q p w hm hw
  exact step_low_fix m b q _ _ hm h1 h2 h3 h4 h5 h6

/-- Invariants of the output of a high-side channel step. -/
theorem step_high_out (m b q p w : Nat) (hm : 1 ≤ m) (hw : m ≤ w) :
    m ≤ (step1 req_high m b q (p, w)).2 ∧
    (step1 req_high m b q (p, w)).1 ≤ b - 1 ∧
    (step1 req_high m b q (p, w)).1 ≤ b - (step1 req_high m b q (p, w)).2 ∧
    ((step1 req_high m b q (p, w)).2 ≤ b ∨
      ((step1 req_high m b q (p, w)).2 = m ∧ (step1 req_high m b q (p, w)).1 = 0)) ∧
    ((step1 req_high m b q (p, w)).2 = m ∨
      (step1 req_high m b q (p, w)).2 =
        max (min (max (q - (step1 req_high m b q (p, w)).1) m)
          (b - (step1 req_high m b q (p, w)).1)) m) ∧
    ((step1 req_high m b q (p, w)).2 = m →
      (q ≤ (step1 req_high m b q (p, w)).1 + m ∨
        (step1 req_high m b q (p, w)).1 = b - m)) := by
  simp only [step1, req_high, clamp1, ite_lt_min]
  omega

/-- Every state satisfying the high-side output invariants is a fixpoint
of the high-side channel step. -/
theorem step_high_fix (m b q P W : Nat) (hm : 1 ≤ m)
    (h1 : m ≤ W) (h2 : P ≤ b - 1) (h3 : P ≤ b - W)
    (h5 : W ≤ b ∨ (W = m ∧ P = 0))
    (h6 : W = m ∨ W = max (min (max (q - P) m) (b - P)) m)
    (h7 : W = m → (q ≤ P + m ∨ P = b - m)) :
    step1 req_high m b q (P, W) = (P, W) := by
  simp only [step1, req_high, clamp1, ite_lt_min, Prod.mk.injEq]
  constructor <;> omega

/-- A high-side channel step is idempotent. -/
theorem step_high_idem (m b q p w : Nat) (hm : 1 ≤ m) (hw : m ≤ w) :
    step1 req_high m b q (step1 req_high m b q (p, w)) = step1 req_high m b q (p, w) := by
  obtain ⟨h1, h2, h3, h5, h6, h7⟩ := step_high_out m b q p w hm hw
  exact step_high_fix m b q _ _ hm h1 h2 h3 h5 h6 h7

/-- Corner requests are floored at the minimum size in both dimensions,
so the guard inside the drag branch always passes. -/
theorem corner_request_ge (r : Rect) (dir : ResizeDirection) (mc mr : Nat) :
    MIN_WIDTH ≤ (corner_request r dir mc mr).2.2.1 ∧
      MIN_HEIGHT ≤ (corner_request r dir mc mr).2.2.2 := by
  cases dir <;> simp [corner_request, MIN_WIDTH, MIN_HEIGHT]

/-- The rectangle after a pointer-drag resize is the product of the two
coordinate-channel steps selected by the resize direction. -/
theorem acd_rect (l : Lease) (dir : ResizeDirection) (mc mr b0 b1 : Nat) :
    (apply_corner_drag l dir mc mr (b0, b1)).tenant.rect =
      ⟨(step1 (fx dir) MIN_WIDTH b0 mc (l.tenant.rect.x, l.tenant.rect.width)).1,
       (step1 (fy dir) MIN_HEIGHT b1 mr (l.tenant.rect.y, l.tenant.rect.height)).1,
       (step1 (fx dir) MIN_WIDTH b0 mc (l.tenant.rect.x, l.tenant.rect.width)).2,
       (step1 (fy dir) MIN_HEIGHT b1 mr (l.tenant.rect.y, l.tenant.rect.height)).2⟩ := by
  have hge := corner_request_ge l.tenant.rect dir mc mr
  cases dir <;>
    (simp only [apply_corner_drag, fx, fy]
     rw [if_pos hge]
     simp only [resize_screen, resize_to]
     rw [if_neg (by omega : ¬ ((corner_request l.tenant.rect _ mc mr).2.2.1 < MIN_WIDTH ∨
          (corner_request l.tenant.rect _ mc mr).2.2.2 < MIN_HEIGHT))]
     rfl)

/-- A pointer-drag resize never touches the gesture flags. -/
theorem apply_corner_drag_tenant (l : Lease) (dir : ResizeDirection) (mc mr : Nat)
    (b : Nat × Nat) :
    (apply_corner_drag l dir mc mr b).tenant.resizing = l.tenant.resizing ∧
      (apply_corner_drag l dir mc mr b).tenant.resize_direction = l.tenant.resize_direction := by
  simp only [apply_corner_drag, resize_screen, resize_to]
  split
  · split <;> exact ⟨rfl, rfl⟩
  · exact ⟨rfl, rfl⟩

/-- C1 as stated is false: for bounds that have shrunk below the minimum
size (here bounds = (3, 3)), resize_to keeps width = MIN_WIDTH = 10 and
x = 0, so x + width = 10 exceeds bounds.width = 3. -/
theorem C1_counterexample :
    ¬ ((resize_to Overlay.new 0 0 MIN_WIDTH MIN_HEIGHT (3, 3)).rect.x +
        (resize_to Overlay.new 0 0 MIN_WIDTH MIN_HEIGHT (3, 3)).rect.width ≤ 3) := by
  decide

/-- C1 (amended): for every request with width ≥ MIN_WIDTH and
height ≥ MIN_HEIGHT, and every bounds with bounds.width ≥ MIN_WIDTH and
bounds.height ≥ MIN_HEIGHT, the rectangle produced by resize_to
satisfies 0 ≤ x, 0 ≤ y, x + width ≤ bounds.width,
y + height ≤ bounds.height, width ≥ MIN_WIDTH and height ≥ MIN_HEIGHT. -/
theorem C1_resize_to_in_bounds (o : Overlay) (x y width height : Nat) (bounds : Nat × Nat)
    (hw : MIN_WIDTH ≤ width) (hh : MIN_HEIGHT ≤ height)
    (hbw : MIN_WIDTH ≤ bounds.1) (hbh : MIN_HEIGHT ≤ bounds.2) :
    0 ≤ (resize_to o x y width height bounds).rect.x ∧
    0 ≤ (resize_to o x y width height bounds).rect.y ∧
    (resize_to o x y width height bounds).rect.x +
      (resize_to o x y width height bounds).rect.width ≤ bounds.1 ∧
    (resize_to o x y width height bounds).rect.y +
      (resize_to o x y width height bounds).rect.height ≤ bounds.2 ∧
    MIN_WIDTH ≤ (resize_to o x y width height bounds).rect.width ∧
    MIN_HEIGHT ≤ (resize_to o x y width height bounds).rect.height := by
  obtain ⟨b0, b1⟩ := bounds
  simp only [MIN_WIDTH, MIN_HEIGHT] at hw hh hbw hbh ⊢
  unfold resize_to
  rw [if_neg (by simp only [MIN_WIDTH, MIN_HEIGHT]; omega)]
  simp only [MIN_WIDTH, MIN_HEIGHT]
  split_ifs <;> refine ⟨?_, ?_, ?_, ?_, ?_, ?_⟩ <;> omega

/-- Witness for C1_resize_to_in_bounds at a concrete input. -/
theorem C1_resize_to_in_bounds_witness :
    (MIN_WIDTH ≤ 12 ∧ MIN_HEIGHT ≤ 6 ∧ MIN_WIDTH ≤ (80, 24).1 ∧ MIN_HEIGHT ≤ (80, 24).2) ∧
    (0 ≤ (resize_to Overlay.new 70 20 12 6 (80, 24)).rect.x ∧
     0 ≤ (resize_to Overlay.new 70 20 12 6 (80, 24)).rect.y ∧
     (resize_to Overlay.new 70 20 12 6 (80, 24)).rect.x +
       (resize_to Overlay.new 70 20 12 6 (80, 24)).rect.width ≤ (80, 24).1 ∧
     (resize_to Overlay.new 70 20 12 6 (80, 24)).rect.y +
       (resize_to Overlay.new 70 20 12 6 (80, 24)).rect.height ≤ (80, 24).2 ∧
     MIN_WIDTH ≤ (resize_to Overlay.new 70 20 12 6 (80, 24)).rect.width ∧
     MIN_HEIGHT ≤ (resize_to Overlay.new 70 20 12 6 (80, 24)).rect.height) :=
  ⟨⟨by decide, by decide, by decide, by decide⟩,
    C1_resize_to_in_bounds Overlay.new 70 20 12 6 (80, 24)
      (by decide) (by decide) (by decide) (by decide)⟩

/-- C2 fails on the code: with the overlay visible at the minimum width
(rect 10 wide), Shift+Left requests width 9; resize_to drops the request
(the rect keeps width 10) but resize_screen is still called with the
requested width, so the vt100 parser is set to 9 columns while the
rectangle it backs is 10 wide. -/
theorem C2_screen_model_mismatch :
    ((handle_keyboard_input
        { tenant := { Overlay.new with rect := ⟨10, 5, MIN_WIDTH, MIN_HEIGHT⟩ }
          screen := ⟨MIN_HEIGHT, MIN_WIDTH⟩
          tenant_visible := true }
        .Left ⟨true, false, false⟩ (80, 24)).1.tenant.rect.width = 10) ∧
    ((handle_keyboard_input
        { tenant := { Overlay.new with rect := ⟨10, 5, MIN_WIDTH, MIN_HEIGHT⟩ }
          screen := ⟨MIN_HEIGHT, MIN_WIDTH⟩
          tenant_visible := true }
        .Left ⟨true, false, false⟩ (80, 24)).1.screen.cols = 9) := by
  decide

/-- C3: the key-to-bytes translation reproduces the standard table.
Plain printable characters give their UTF-8 bytes; Control masks the
byte with 0x1F; Alt sends ESC then the byte; the special keys, function
keys and arrows give the standard VT sequences, and while the overlay is
hidden Shift+Left and Ctrl+arrow give the modified CSI sequences. -/
theorem C3_key_translation (l : Lease) (ts : Nat × Nat) (c : Char) (hc : c.toNat < 256) :
    (handle_keyboard_input l (.Char c) ⟨false, false, false⟩ ts).2.1 = [char_utf8 c] ∧
    (handle_keyboard_input l (.Char 'a') ⟨false, false, false⟩ ts).2.1 = [[0x61]] ∧
    (handle_keyboard_input l (.Char c) ⟨false, true, false⟩ ts).2.1 = [[c.toNat &&& 0x1F]] ∧
    (handle_keyboard_input l (.Char 'a') ⟨false, true, false⟩ ts).2.1 = [[0x01]] ∧
    (handle_keyboard_input l (.Char c) ⟨false, false, true⟩ ts).2.1 = [[0x1B, c.toNat]] ∧
    (handle_keyboard_input l (.Char 'a') ⟨false, false, true⟩ ts).2.1 = [[0x1B, 0x61]] ∧
    (handle_keyboard_input l .Enter ⟨false, false, false⟩ ts).2.1 = [[0x0D]] ∧
    (handle_keyboard_input l .Backspace ⟨false, false, false⟩ ts).2.1 = [[0x08]] ∧
    (handle_keyboard_input l .Delete ⟨false, false, false⟩ ts).2.1 = [[27, 91, 51, 126]] ∧
    (handle_keyboard_input l .Tab ⟨false, false, false⟩ ts).2.1 = [[9]] ∧
    (handle_keyboard_input l .BackTab ⟨false, false, false⟩ ts).2.1 = [[27, 91, 90]] ∧
    (handle_keyboard_input l .Esc ⟨false, false, false⟩ ts).2.1 = [[27]] ∧
    (handle_keyboard_input l .PageUp ⟨false, false, false⟩ ts).2.1 = [[27, 91, 53, 126]] ∧
    (handle_keyboard_input l .PageDown ⟨false, false, false⟩ ts).2.1 = [[27, 91, 54, 126]] ∧
    (handle_keyboard_input l .End ⟨false, false, false⟩ ts).2.1 = [[27, 91, 70]] ∧
    (handle_keyboard_input l (.F 1) ⟨false, false, false⟩ ts).2.1 = [[27, 79, 80]] ∧
    (handle_keyboard_input l (.F 2) ⟨false, false, false⟩ ts).2.1 = [[27, 79, 81]] ∧
    (handle_keyboard_input l (.F 3) ⟨false, false, false⟩ ts).2.1 = [[27, 79, 82]] ∧
    (handle_keyboard_input l (.F 4) ⟨false, false, false⟩ ts).2.1 = [[27, 79, 83]] ∧
    (handle_keyboard_input l (.F 5) ⟨false, false, false⟩ ts).2.1 = [[27, 91, 49, 53, 126]] ∧
    (handle_keyboard_input l (.F 6) ⟨false, false, false⟩ ts).2.1 = [[27, 91, 49, 55, 126]] ∧
    (handle_keyboard_input l (.F 7) ⟨false, false, false⟩ ts).2.1 = [[27, 91, 49, 56, 126]] ∧
    (handle_keyboard_input l (.F 8) ⟨false, false, false⟩ ts).2.1 = [[27, 91, 49, 57, 126]] ∧
    (handle_keyboard_input l (.F 9) ⟨false, false, false⟩ ts).2.1 = [[27, 91, 50, 48, 126]] ∧
    (handle_keyboard_input l (.F 10) ⟨false, false, false⟩ ts).2.1 = [[27, 91, 50, 49, 126]] ∧
    (handle_keyboard_input l (.F 11) ⟨false, false, false⟩ ts).2.1 = [[27, 91, 50, 51, 126]] ∧
    (handle_keyboard_input l (.F 12) ⟨false, false, false⟩ ts).2.1 = [[27, 91, 50, 52, 126]] ∧
    (handle_keyboard_input l .Up ⟨false, false, false⟩ ts).2.1 = [[27, 91, 65]] ∧
    (handle_keyboard_input l .Down ⟨false, false, false⟩ ts).2.1 = [[27, 91, 66]] ∧
    (handle_keyboard_input l .Right ⟨false, false, false⟩ ts).2.1 = [[27, 91, 67]] ∧
    (handle_keyboard_input l .Left ⟨false, false, false⟩ ts).2.1 = [[27, 91, 68]] ∧
    (handle_keyboard_input { l with tenant_visible := false } .Left
        ⟨true, false, false⟩ ts).2.1 = [[27, 91, 49, 59, 50, 68]] ∧
    (handle_keyboard_input { l with tenant_visible := false } .Up
        ⟨false, true, false⟩ ts).2.1 = [[27, 91, 49, 59, 53, 65]] ∧
    (handle_keyboard_input { l with tenant_visible := false } .Down
        ⟨false, true, false⟩ ts).2.1 = [[27, 91, 49, 59, 53, 66]] ∧
    (handle_keyboard_input { l with tenant_visible := false } .Right
        ⟨false, true, false⟩ ts).2.1 = [[27, 91, 49, 59, 53, 67]] ∧
    (handle_keyboard_input { l with tenant_visible := false } .Left
        ⟨false, true, false⟩ ts).2.1 = [[27, 91, 49, 59, 53, 68]] := by
  have hmod : c.toNat % 256 = c.toNat := Nat.mod_eq_of_lt hc
  refine ⟨rfl, rfl, ?_, rfl, ?_, rfl, rfl, rfl, rfl, rfl, rfl, rfl, rfl, rfl, rfl,
    rfl, rfl, rfl, rfl, rfl, rfl, rfl, rfl, rfl, rfl, rfl, rfl, rfl, rfl, rfl, rfl,
    rfl, rfl, rfl, rfl, rfl⟩ <;>
    simp [handle_keyboard_input, key_bytes, hmod]

/-- Witness for C3_key_translation at the fresh lease and character a. -/
theorem C3_key_translation_witness :
    (('a').toNat < 256) ∧
    (handle_keyboard_input Lease.new (.Char 'a') ⟨false, true, false⟩ (80, 24)).2.1
      = [['a'.toNat &&& 0x1F]] :=
  ⟨by decide, (C3_key_translation Lease.new (80, 24) 'a' (by decide)).2.2.1⟩

/-- C4 fails as stated: the Home toggle in handle_keyboard_input has no
dead-check, so on a dead lease (is_dead = true, visible = false) it
still flips visibility to true rather than being rejected. -/
theorem C4_counterexample :
    (handle_keyboard_input Lease.new .Home ⟨false, false, false⟩ (80, 24)).1.tenant_visible
      = true := by
  decide

/-- C4 (amended): the visibility toggle itself is an unconditional flag
flip with no dead-lease guard, but expired() returns true whenever the
tenant is dead and forces visible = false regardless of its prior value,
so visibility cannot remain set past the next expired() check. -/
theorem C4_expired_forces_hidden (l : Lease) (h : l.tenant.is_dead = true) :
    (expired l).1 = true ∧ (expired l).2.tenant_visible = false := by
  simp [expired, h]

/-- Witness for C4_expired_forces_hidden: the freshly constructed lease
starts with a dead tenant overlay. -/
theorem C4_expired_forces_hidden_witness :
    (Lease.new.tenant.is_dead = true) ∧
    ((expired Lease.new).1 = true ∧ (expired Lease.new).2.tenant_visible = false) :=
  ⟨by decide, C4_expired_forces_hidden Lease.new (by decide)⟩

/-- C5: a chunk of owner output equal to ESC [ ? 1000 h turns the
mouse-mode flag true (whatever the TERM variable and the previous flag
value), and a subsequent left-button press at column 5, row 10 with the
overlay hidden is forwarded as exactly ESC [ < 0 ; 6 ; 11 M. -/
theorem C5_mouse_mode_scenario (term : List Nat) (flag : Bool) :
    update_mouse_mode term [27, 91, 63, 49, 48, 48, 48, 104] flag = true ∧
    forward_mouse false true ⟨.DownLeft, 5, 10⟩ =
      [[27, 91, 60, 48, 59, 54, 59, 49, 49, 77]] :=
  ⟨rfl, rfl⟩

/-- C6: while the overlay is hidden and the mouse-mode flag is false,
the input router forwards zero bytes for any mouse event. -/
theorem C6_hidden_mouse_dropped (m : MouseEvent) :
    forward_mouse false false m = [] := rfl

/-- C7 as stated is false: move_to preserves size, so when the rectangle
is wider than the bounds (default width 40, bounds width 20) the result
cannot be fully inside the bounds. -/
theorem C7_counterexample :
    ¬ ((move_to Overlay.new 0 0 (20, 30)).rect.x +
        (move_to Overlay.new 0 0 (20, 30)).rect.width ≤ 20) := by
  decide

/-- C7 (amended): move_to never changes width or height, only the
origin; and whenever the rectangle's size fits inside the bounds
(width ≤ bounds.width and height ≤ bounds.height), the rectangle after
the call is fully inside the bounds. -/
theorem C7_move_to (o : Overlay) (target_x target_y : Nat) (bounds : Nat × Nat) :
    ((move_to o target_x target_y bounds).rect.width = o.rect.width ∧
     (move_to o target_x target_y bounds).rect.height = o.rect.height) ∧
    (o.rect.width ≤ bounds.1 → o.rect.height ≤ bounds.2 →
      (move_to o target_x target_y bounds).rect.x +
        (move_to o target_x target_y bounds).rect.width ≤ bounds.1 ∧
      (move_to o target_x target_y bounds).rect.y +
        (move_to o target_x target_y bounds).rect.height ≤ bounds.2) := by
  unfold move_to
  refine ⟨⟨rfl, rfl⟩, fun hw hh => ⟨?_, ?_⟩⟩ <;> simp only <;> omega

/-- Witness for C7_move_to at a concrete input. -/
theorem C7_move_to_witness :
    ((move_to Overlay.new 100 100 (80, 24)).rect.width = Overlay.new.rect.width ∧
     (move_to Overlay.new 100 100 (80, 24)).rect.height = Overlay.new.rect.height) ∧
    (Overlay.new.rect.width ≤ (80, 24).1 → Overlay.new.rect.height ≤ (80, 24).2 →
      (move_to Overlay.new 100 100 (80, 24)).rect.x +
        (move_to Overlay.new 100 100 (80, 24)).rect.width ≤ (80, 24).1 ∧
      (move_to Overlay.new 100 100 (80, 24)).rect.y +
        (move_to Overlay.new 100 100 (80, 24)).rect.height ≤ (80, 24).2) :=
  C7_move_to Overlay.new 100 100 (80, 24)

/-- C8: every resize request with width < MIN_WIDTH or
height < MIN_HEIGHT leaves the overlay completely unchanged (a silent
no-op, no error value exists). -/
theorem C8_resize_to_rejects_small (o : Overlay) (x y width height : Nat)
    (bounds : Nat × Nat) (h : width < MIN_WIDTH ∨ height < MIN_HEIGHT) :
    resize_to o x y width height bounds = o := by
  unfold resize_to
  rw [if_pos h]

/-- Witness for C8_resize_to_rejects_small at a concrete input. -/
theorem C8_resize_to_rejects_small_witness :
    ((9 : Nat) < MIN_WIDTH ∨ (5 : Nat) < MIN_HEIGHT) ∧
    resize_to Overlay.new 1 2 9 5 (80, 24) = Overlay.new :=
  ⟨Or.inl (by decide),
    C8_resize_to_rejects_small Overlay.new 1 2 9 5 (80, 24) (Or.inl (by decide))⟩

/-- C9: a pointer-drag corner-resize update is idempotent: starting from
any gesture state with resizing set and any resize direction, applying
the drag update at a pointer position and applying it again at the same
position leaves the overlay rectangle unchanged.  The hypotheses are the
data-model invariants (rectangle at least the minimum size) and the u16
ranges of the quantities involved. -/
theorem C9_drag_resize_idempotent (l : Lease) (d : Option ResizeDirection)
    (mc mr b0 b1 : Nat)
    (hw : MIN_WIDTH ≤ l.tenant.rect.width) (hh : MIN_HEIGHT ≤ l.tenant.rect.height)
    (hxw : l.tenant.rect.x + l.tenant.rect.width ≤ 65535)
    (hyh : l.tenant.rect.y + l.tenant.rect.height ≤ 65535)
    (hb0 : b0 ≤ 65535) (hb1 : b1 ≤ 65535) (hmc : mc ≤ 65535) (hmr : mr ≤ 65535) :
    (handle_mouse
        (handle_mouse
          { l with tenant := { l.tenant with resizing := true, resize_direction := d } }
          ⟨.DragLeft, mc, mr⟩ (b0, b1))
        ⟨.DragLeft, mc, mr⟩ (b0, b1)).tenant.rect =
      (handle_mouse
        { l with tenant := { l.tenant with resizing := true, resize_direction := d } }
        ⟨.DragLeft, mc, mr⟩ (b0, b1)).tenant.rect := by
  cases d with
  | none => rfl
  | some dir =>
      have hstep : ∀ l2 : Lease, l2.tenant.resizing = true →
          l2.tenant.resize_direction = some dir →
          handle_mouse l2 ⟨.DragLeft, mc, mr⟩ (b0, b1) =
            apply_corner_drag l2 dir mc mr (b0, b1) := by
        intro l2 h1 h2
        simp [handle_mouse, h1, h2]
      set l0 := { l with tenant :=
        { l.tenant with resizing := true, resize_direction := some dir } } with hl0
      have e1 : handle_mouse l0 ⟨.DragLeft, mc, mr⟩ (b0, b1) =
          apply_corner_drag l0 dir mc mr (b0, b1) := hstep l0 rfl rfl
      obtain ⟨hrs, hrd⟩ := apply_corner_drag_tenant l0 dir mc mr (b0, b1)
      have e2 : handle_mouse (apply_corner_drag l0 dir mc mr (b0, b1))
          ⟨.DragLeft, mc, mr⟩ (b0, b1) =
          apply_corner_drag (apply_corner_drag l0 dir mc mr (b0, b1)) dir mc mr (b0, b1) :=
        hstep _ (by rw [hrs]) (by rw [hrd])
      rw [e1, e2, acd_rect, acd_rect]
      have hx : step1 (fx dir) MIN_WIDTH b0 mc
          (step1 (fx dir) MIN_WIDTH b0 mc (l.tenant.rect.x, l.tenant.rect.width)) =
          step1 (fx dir) MIN_WIDTH b0 mc (l.tenant.rect.x, l.tenant.rect.width) := by
        cases dir with
        | TopLeft => exact step_low_idem MIN_WIDTH b0 mc _ _ (by decide) hw
        | BottomLeft => exact step_low_idem MIN_WIDTH b0 mc _ _ (by decide) hw
        | TopRight => exact step_high_idem MIN_WIDTH b0 mc _ _ (by decide) hw
        | BottomRight => exact step_high_idem MIN_WIDTH b0 mc _ _ (by decide) hw
      have hy : step1 (fy dir) MIN_HEIGHT b1 mr
          (step1 (fy dir) MIN_HEIGHT b1 mr (l.tenant.rect.y, l.tenant.rect.height)) =
          step1 (fy dir) MIN_HEIGHT b1 mr (l.tenant.rect.y, l.tenant.rect.height) := by
        cases dir with
        | TopLeft => exact step_low_idem MIN_HEIGHT b1 mr _ _ (by decide) hh
        | TopRight => exact step_low_idem MIN_HEIGHT b1 mr _ _ (by decide) hh
        | BottomLeft => exact step_high_idem MIN_HEIGHT b1 mr _ _ (by decide) hh
        | BottomRight => exact step_high_idem MIN_HEIGHT b1 mr _ _ (by decide) hh
      simp only [Rect.mk.injEq]
      exact ⟨congrArg Prod.fst hx, congrArg Prod.fst hy,
        congrArg Prod.snd hx, congrArg Prod.snd hy⟩

/-- Witness for C9_drag_resize_idempotent at a concrete input. -/
theorem C9_drag_resize_idempotent_witness :
    (MIN_WIDTH ≤ Lease.new.tenant.rect.width ∧
     MIN_HEIGHT ≤ Lease.new.tenant.rect.height ∧
     Lease.new.tenant.rect.x + Lease.new.tenant.rect.width ≤ 65535 ∧
     Lease.new.tenant.rect.y + Lease.new.tenant.rect.height ≤ 65535 ∧
     (80 : Nat) ≤ 65535 ∧ (24 : Nat) ≤ 65535 ∧ (30 : Nat) ≤ 65535 ∧ (20 : Nat) ≤ 65535) ∧
    (handle_mouse
        (handle_mouse
          { Lease.new with tenant :=
              { Lease.new.tenant with
                  resizing := true
                  resize_direction := some ResizeDirection.BottomRight } }
          ⟨.DragLeft, 30, 20⟩ (80, 24))
        ⟨.DragLeft, 30, 20⟩ (80, 24)).tenant.rect =
      (handle_mouse
        { Lease.new with tenant :=
            { Lease.new.tenant with
                resizing := true
                resize_direction := some ResizeDirection.BottomRight } }
        ⟨.DragLeft, 30, 20⟩ (80, 24)).tenant.rect :=
  ⟨⟨by decide, by decide, by decide, by decide, by decide, by decide, by decide, by decide⟩,
    C9_drag_resize_idempotent Lease.new (some ResizeDirection.BottomRight) 30 20 80 24
      (by decide) (by decide) (by decide) (by decide)
      (by decide) (by decide) (by decide) (by decide)⟩

/-- C10: handle_keyboard_input returns false for every key code and
modifier combination, so no key press alone can break the owner event
loop. -/
theorem C10_never_exits (l : Lease) (code : KeyCode) (mods : KeyModifiers)
    (ts : Nat × Nat) :
    (handle_keyboard_input l code mods ts).2.2 = false := by
  obtain ⟨s, c, a⟩ := mods
  cases code <;> cases s <;> cases c <;> cases hv : l.tenant_visible <;>
    simp [handle_keyboard_input, key_bytes, hv]

end Uncl
